import Mathlib

set_option maxRecDepth 100000

/-!
Verification of the kb-stats event-device tool (src/kbstats.c) against its
natural-language specification.  The C program is shallowly embedded: the
static name tables become Lean lists built with the same designated-initializer
discipline, the lookup helpers become Lean functions mirroring the C
expressions (including the C implicit unsigned conversion in the
`code <= maxval[type]` comparison), and the capture loop becomes a recursion
over a finite script of loop iterations.
-/

namespace KbStats

/-! ### Protocol constants (from linux/input.h, as seen by kbstats.c) -/

def EV_SYN : Nat := 0x00
def EV_KEY : Nat := 0x01
def EV_REL : Nat := 0x02
def EV_MSC : Nat := 0x04
def EV_SW : Nat := 0x05
def EV_LED : Nat := 0x11
def EV_SND : Nat := 0x12
def EV_REP : Nat := 0x14
def EV_FF : Nat := 0x15
def EV_PWR : Nat := 0x16
def EV_FF_STATUS : Nat := 0x17
def EV_MAX : Nat := 0x1f

def SYN_REPORT : Nat := 0
def SYN_CONFIG : Nat := 1
def SYN_MT_REPORT : Nat := 2
def SYN_DROPPED : Nat := 3
def SYN_MAX : Nat := 0xf

def KEY_MAX : Nat := 0x2ff
def REL_MAX : Nat := 0x0f
def MSC_MAX : Nat := 0x07
def SW_MAX : Nat := 0x10
def LED_MAX : Nat := 0x0f
def SND_MAX : Nat := 0x07
def REP_MAX : Nat := 0x01
def FF_MAX : Nat := 0x7f
def FF_STATUS_MAX : Nat := 0x01

/-- Size in bytes of one `struct input_event` record on the 64-bit targets the
program is built for (16-byte timeval + u16 type + u16 code + s32 value). -/
def inputEventSize : Nat := 24

/-! ### Designated-initializer arrays

A C array initialized with `[0 ... MAX] = NULL, [i] = "name", ...` is modelled
as a list of `Option` values of length `MAX + 1`, where index `i` holds the
entry registered for `i` (the initializer lists in the source contain no
duplicate indices, so `List.lookup` over the entry list reproduces the
initializer exactly). -/

def mkArr {α : Type} (size : Nat) (entries : List (Nat × α)) : List (Option α) :=
  (List.range size).map fun i => entries.lookup i

/-- The entries of the `keys` array (`static const char *const keys[KEY_MAX+1]`),
index ↦ name, in source order. -/
def keysEntries : List (Nat × String) := [
  (0, "KEY_RESERVED"),
  (1, "KEY_ESC"),
  (2, "KEY_1"),
  (3, "KEY_2"),
  (4, "KEY_3"),
  (5, "KEY_4"),
  (6, "KEY_5"),
  (7, "KEY_6"),
  (8, "KEY_7"),
  (9, "KEY_8"),
  (10, "KEY_9"),
  (11, "KEY_0"),
  (12, "KEY_MINUS"),
  (13, "KEY_EQUAL"),
  (14, "KEY_BACKSPACE"),
  (15, "KEY_TAB"),
  (16, "KEY_Q"),
  (17, "KEY_W"),
  (18, "KEY_E"),
  (19, "KEY_R"),
  (20, "KEY_T"),
  (21, "KEY_Y"),
  (22, "KEY_U"),
  (23, "KEY_I"),
  (24, "KEY_O"),
  (25, "KEY_P"),
  (26, "KEY_LEFTBRACE"),
  (27, "KEY_RIGHTBRACE"),
  (28, "KEY_ENTER"),
  (29, "KEY_LEFTCTRL"),
  (30, "KEY_A"),
  (31, "KEY_S"),
  (32, "KEY_D"),
  (33, "KEY_F"),
  (34, "KEY_G"),
  (35, "KEY_H"),
  (36, "KEY_J"),
  (37, "KEY_K"),
  (38, "KEY_L"),
  (39, "KEY_SEMICOLON"),
  (40, "KEY_APOSTROPHE"),
  (41, "KEY_GRAVE"),
  (42, "KEY_LEFTSHIFT"),
  (43, "KEY_BACKSLASH"),
  (44, "KEY_Z"),
  (45, "KEY_X"),
  (46, "KEY_C"),
  (47, "KEY_V"),
  (48, "KEY_B"),
  (49, "KEY_N"),
  (50, "KEY_M"),
  (51, "KEY_COMMA"),
  (52, "KEY_DOT"),
  (53, "KEY_SLASH"),
  (54, "KEY_RIGHTSHIFT"),
  (55, "KEY_KPASTERISK"),
  (56, "KEY_LEFTALT"),
  (57, "KEY_SPACE"),
  (58, "KEY_CAPSLOCK"),
  (69, "KEY_NUMLOCK"),
  (70, "KEY_SCROLLLOCK"),
  (74, "KEY_KPMINUS"),
  (97, "KEY_RIGHTCTRL"),
  (100, "KEY_RIGHTALT"),
  (102, "KEY_HOME"),
  (103, "KEY_UP"),
  (104, "KEY_PAGEUP"),
  (105, "KEY_LEFT"),
  (106, "KEY_RIGHT"),
  (107, "KEY_END"),
  (108, "KEY_DOWN"),
  (109, "KEY_PAGEDOWN"),
  (110, "KEY_INSERT"),
  (111, "KEY_DELETE"),
  (112, "KEY_MACRO"),
  (113, "KEY_MUTE"),
  (114, "KEY_VOLUMEDOWN"),
  (115, "KEY_VOLUMEUP"),
  (116, "KEY_POWER"),
  (117, "KEY_KPEQUAL"),
  (118, "KEY_KPPLUSMINUS"),
  (119, "KEY_PAUSE"),
  (125, "KEY_LEFTMETA"),
  (126, "KEY_RIGHTMETA"),
  (127, "KEY_COMPOSE"),
  (128, "KEY_STOP"),
  (129, "KEY_AGAIN"),
  (130, "KEY_PROPS"),
  (131, "KEY_UNDO"),
  (132, "KEY_FRONT"),
  (133, "KEY_COPY"),
  (134, "KEY_OPEN"),
  (135, "KEY_PASTE"),
  (136, "KEY_FIND"),
  (137, "KEY_CUT"),
  (138, "KEY_HELP"),
  (139, "KEY_MENU"),
  (140, "KEY_CALC"),
  (141, "KEY_SETUP"),
  (142, "KEY_SLEEP"),
  (143, "KEY_WAKEUP"),
  (144, "KEY_FILE"),
  (145, "KEY_SENDFILE"),
  (146, "KEY_DELETEFILE"),
  (158, "KEY_BACK"),
  (159, "KEY_FORWARD"),
  (173, "KEY_REFRESH"),
  (174, "KEY_EXIT"),
  (175, "KEY_MOVE"),
  (176, "KEY_EDIT"),
  (177, "KEY_SCROLLUP"),
  (178, "KEY_SCROLLDOWN"),
  (179, "KEY_KPLEFTPAREN"),
  (180, "KEY_KPRIGHTPAREN"),
  (224, "KEY_BRIGHTNESSDOWN"),
  (225, "KEY_BRIGHTNESSUP"),
  (512, "KEY_NUMERIC_0"),
  (513, "KEY_NUMERIC_1"),
  (514, "KEY_NUMERIC_2"),
  (515, "KEY_NUMERIC_3"),
  (516, "KEY_NUMERIC_4"),
  (517, "KEY_NUMERIC_5"),
  (518, "KEY_NUMERIC_6"),
  (519, "KEY_NUMERIC_7"),
  (520, "KEY_NUMERIC_8"),
  (521, "KEY_NUMERIC_9"),
  (522, "KEY_NUMERIC_STAR"),
  (523, "KEY_NUMERIC_POUND"),
  (592, "KEY_BRIGHTNESS_MIN"),
  (593, "KEY_BRIGHTNESS_MAX")]

def keys : List (Option String) := mkArr (KEY_MAX + 1) keysEntries

/-- `static const char *const repeats[REP_MAX + 1]` (defined in the source but
never linked into `names`). -/
def repeatsEntries : List (Nat × String) := [
  (0, "REP_DELAY"),
  (1, "REP_PERIOD")]

def repeats : List (Option String) := mkArr (REP_MAX + 1) repeatsEntries

/-- `static const char *const syns[SYN_MAX + 1]`. -/
def synsEntries : List (Nat × String) := [
  (0, "SYN_REPORT"),
  (1, "SYN_CONFIG"),
  (2, "SYN_MT_REPORT"),
  (3, "SYN_DROPPED")]

def syns : List (Option String) := mkArr (SYN_MAX + 1) synsEntries

/-- `static const char *const forcestatus[FF_STATUS_MAX + 1]`. -/
def forcestatusEntries : List (Nat × String) := [
  (0, "FF_STATUS_STOPPED"),
  (1, "FF_STATUS_PLAYING")]

def forcestatus : List (Option String) := mkArr (FF_STATUS_MAX + 1) forcestatusEntries

/-- `static const char *const events[EV_MAX + 1]`: type-id ↦ type name. -/
def eventsEntries : List (Nat × String) := [
  (EV_SYN, "EV_SYN"),
  (EV_KEY, "EV_KEY"),
  (EV_REL, "EV_REL"),
  (EV_MSC, "EV_MSC"),
  (EV_LED, "EV_LED"),
  (EV_SND, "EV_SND"),
  (EV_REP, "EV_REP"),
  (EV_FF, "EV_FF"),
  (EV_PWR, "EV_PWR"),
  (EV_FF_STATUS, "EV_FF_STATUS"),
  (EV_SW, "EV_SW")]

def events : List (Option String) := mkArr (EV_MAX + 1) eventsEntries

/-- `static const int maxval[EV_MAX + 1]`, default entry `-1`. -/
def maxvalEntries : List (Nat × Int) := [
  (EV_SYN, (SYN_MAX : Int)),
  (EV_KEY, (KEY_MAX : Int)),
  (EV_REL, (REL_MAX : Int)),
  (EV_MSC, (MSC_MAX : Int)),
  (EV_SW, (SW_MAX : Int)),
  (EV_LED, (LED_MAX : Int)),
  (EV_SND, (SND_MAX : Int)),
  (EV_REP, (REP_MAX : Int)),
  (EV_FF, (FF_MAX : Int)),
  (EV_FF_STATUS, (FF_STATUS_MAX : Int))]

def maxval : List Int :=
  (List.range (EV_MAX + 1)).map fun t => ((maxvalEntries.lookup t).getD (-1))

/-- The entries of `names`: the three types that have a sub-table. -/
def namesEntries : List (Nat × List (Option String)) :=
  [(EV_SYN, syns), (EV_KEY, keys), (EV_FF_STATUS, forcestatus)]

/-- `static const char *const *const names[EV_MAX + 1]`: type-id ↦ per-type
name table (NULL for types without one). -/
def names : List (Option (List (Option String))) :=
  mkArr (EV_MAX + 1) namesEntries

/-! ### The lookup helpers -/

/-- The value of a C `int` read as `unsigned int`, as happens implicitly in the
comparison `code <= maxval[type]` (usual arithmetic conversions: the `int`
operand is converted to `unsigned int`, so `-1` becomes `2^32 - 1`). -/
def uintOfInt (m : Int) : Nat := (m % (2 ^ 32 : Int)).toNat

/-- `typename`: `(type <= EV_MAX && events[type]) ? events[type] : "?"`. -/
def typenameOf (type : Nat) : String :=
  if type ≤ EV_MAX then ((events.getD type none).getD "?") else "?"

/-- `codename` with every table read made explicit: the result is `none` when
the evaluation would read outside the declared bounds of one of the arrays
(which is exactly what the bounds checks are claimed to exclude), and
`some s` when it evaluates to the string `s`.  Mirrors
`(type <= EV_MAX && code <= maxval[type] && names[type] && names[type][code])
 ? names[type][code] : "?"` with C short-circuit evaluation order and the
unsigned conversion applied to `maxval[type]`. -/
def codenameChecked (type code : Nat) : Option String :=
  if type ≤ EV_MAX then
    match maxval.get? type with
    | none => none
    | some m =>
      if code ≤ uintOfInt m then
        match names.get? type with
        | none => none
        | some none => some "?"
        | some (some tbl) =>
          match tbl.get? code with
          | none => none
          | some none => some "?"
          | some (some s) => some s
      else some "?"
  else some "?"

/-- The string actually produced by `codename` (total; the `"?"` default is
never consulted on the 32-bit domain, by `codename_total_inbounds`). -/
def codename (type code : Nat) : String := (codenameChecked type code).getD "?"

/-- `(type, code)` has the name `s` registered in the `names` tables. -/
def Registered (type code : Nat) (s : String) : Prop :=
  ∃ tbl, names.get? type = some (some tbl) ∧ tbl.get? code = some (some s)

/-! ### Basic table lemmas -/

theorem mkArr_length {α : Type} (size : Nat) (entries : List (Nat × α)) :
    (mkArr size entries).length = size := by
  simp [mkArr]

theorem mkArr_get? {α : Type} (size : Nat) (entries : List (Nat × α)) (i : Nat)
    (h : i < size) : (mkArr size entries).get? i = some (entries.lookup i) := by
  rw [mkArr, List.get?_eq_getElem?, List.getElem?_map, List.getElem?_range h]
  rfl

theorem mkArr_get?_ge {α : Type} (size : Nat) (entries : List (Nat × α)) (i : Nat)
    (h : size ≤ i) : (mkArr size entries).get? i = none := by
  apply List.get?_eq_none.mpr
  simpa [mkArr_length] using h

theorem maxval_get? (t : Nat) (h : t < EV_MAX + 1) :
    maxval.get? t = some ((maxvalEntries.lookup t).getD (-1)) := by
  rw [maxval, List.get?_eq_getElem?, List.getElem?_map, List.getElem?_range h]
  rfl

/-! ### Query modes and keycode resolution -/

/-- One row of the `query_modes` table.  The `rq` ioctl request number is an
opaque OS constant (`EVIOCGKEY(KEY_MAX)`); its effect is modelled by the
`Device.keyState` response below, so the field is not reproduced here. -/
structure QueryMode where
  name : String
  event_type : Nat
  max : Nat
deriving DecidableEq

def query_modes : List QueryMode := [⟨"EV_KEY", EV_KEY, KEY_MAX⟩]

/-- The single row of `query_modes`. -/
def evKeyMode : QueryMode := ⟨"EV_KEY", EV_KEY, KEY_MAX⟩

/-- `find_query_mode_by_name`: linear scan of `query_modes` by `strcmp`. -/
def find_query_mode_by_name (name : String) : Option QueryMode :=
  query_modes.find? fun m => m.name == name

/-- `find_query_mode` just forwards to the by-name lookup. -/
def find_query_mode (query_mode : String) : Option QueryMode :=
  find_query_mode_by_name query_mode

/-- `isdigit(kstr[0])` (for the empty string, `kstr[0]` is the NUL terminator,
which is not a digit). -/
def isDigitFirst (s : String) : Bool :=
  match s.toList with
  | [] => false
  | c :: _ => c.isDigit

def decDigit (c : Char) : Option Nat :=
  if c.isDigit then some (c.toNat - 48) else none

def octDigit (c : Char) : Option Nat :=
  if ('0' ≤ c && c ≤ '7') then some (c.toNat - 48) else none

def hexDigit (c : Char) : Option Nat :=
  if c.isDigit then some (c.toNat - 48)
  else if ('a' ≤ c && c ≤ 'f') then some (c.toNat - 87)
  else if ('A' ≤ c && c ≤ 'F') then some (c.toNat - 55)
  else none

def parseDigits (digit : Char → Option Nat) (base : Nat) : List Char → Nat → Nat
  | [], acc => acc
  | c :: cs, acc =>
    match digit c with
    | some d => parseDigits digit base cs (acc * base + d)
    | none => acc

/-- Model of `strtoul(kstr, NULL, 0)` for the arguments reachable here (the
first character is a digit, checked by the caller): a `0x`/`0X` prefix selects
hexadecimal, a leading `0` selects octal, anything else decimal; parsing stops
at the first character that is not a digit of the selected base.  The result
is the exact value; the caller treats a value beyond `ULONG_MAX` as the
`ERANGE` failure `strtoul` would report through `errno`. -/
def strtoulBase0 (s : String) : Nat :=
  match s.toList with
  | '0' :: 'x' :: rest => parseDigits hexDigit 16 rest 0
  | '0' :: 'X' :: rest => parseDigits hexDigit 16 rest 0
  | '0' :: rest => parseDigits octDigit 8 rest 0
  | l => parseDigits decDigit 10 l 0

/-- The C cast `(int)val` from `unsigned long`: truncate to 32 bits, then
reinterpret as two's-complement. -/
def int32OfNat (n : Nat) : Int :=
  if n % 2 ^ 32 < 2 ^ 31 then ((n % 2 ^ 32 : Nat) : Int)
  else ((n % 2 ^ 32 : Nat) : Int) - 2 ^ 32

/-- The name-scanning loop of `get_keycode`:
`for (i = 0; i < max; i++) { name = keynames[i]; if (name && !strcmp(name, kstr)) return i; }`,
written with an explicit index `i` and remaining-iteration count. -/
def scanNames (keynames : List (Option String)) (kstr : String) : Nat → Nat → Option Nat
  | _, 0 => none
  | i, fuel + 1 =>
    match keynames.getD i none with
    | some n => if n = kstr then some i else scanNames keynames kstr (i + 1) fuel
    | none => scanNames keynames kstr (i + 1) fuel

/-- `get_keycode`: a string that starts with a digit is parsed as a numeral
(`strtoul` base 0, then cast to `int`); otherwise the per-type name table
`names[query_mode->event_type]` is scanned for an exact match below
`query_mode->max`.  Returns the code, or `-1` on failure. -/
def get_keycode (query_mode : QueryMode) (kstr : String) : Int :=
  if isDigitFirst kstr then
    let val := strtoulBase0 kstr
    if val < 2 ^ 64 then int32OfNat val else -1
  else
    let keynames := (names.getD query_mode.event_type none).getD []
    match scanNames keynames kstr 0 query_mode.max with
    | some i => (i : Int)
    | none => -1

/-! ### Device model and the one-shot state query -/

/-- The slice of the OS a query interacts with: whether `open` succeeds, and
the response to the mode's state ioctl (`none` models the ioctl returning
`-1`, `some st` models it filling the zero-initialized bit buffer with the
bits of `st`). -/
structure Device where
  openOk : Bool
  keyState : Option Nat
deriving DecidableEq

/-- `test_bit(bit, array)`: bit extraction from the state buffer. -/
def test_bit (bit : Nat) (state : Nat) : Bool := state.testBit bit

/-- `query_device`: open, ioctl, then
`return test_bit(keycode, state) ? 10 : 0`, with `EXIT_FAILURE` (1) when the
open or the ioctl fails. -/
def query_device (dev : Device) (query_mode : QueryMode) (keycode : Nat) : Nat :=
  if dev.openOk = false then 1
  else
    match dev.keyState with
    | none => 1
    | some st => if test_bit keycode st then 10 else 0

/-- How a `do_query` invocation resolves: a usage error (missing device,
unknown mode, or unresolvable key name), an out-of-range rejection
(`EXIT_FAILURE` before any device I/O), or an actual device query with its
result code.  Only the `queried` constructor touches the device. -/
inductive QueryOutcome where
  | usageError
  | outOfRange
  | queried (keycode : Nat) (result : Nat)
deriving DecidableEq

/-- `do_query`: resolve the mode (the literal `"EV_KEY"` is passed in the
source), resolve the keycode, reject negative or out-of-range codes, and only
then call `query_device`.  `world` maps a device path to the device behind it;
it is consulted only on the `queried` path. -/
def do_query (world : String → Device) (device : Option String)
    (event_type keyname : String) : QueryOutcome :=
  match device with
  | none => QueryOutcome.usageError
  | some path =>
    match find_query_mode "EV_KEY" with
    | none => QueryOutcome.usageError
    | some query_mode =>
      let keycode := get_keycode query_mode keyname
      if keycode < 0 then QueryOutcome.usageError
      else if keycode > (query_mode.max : Int) then QueryOutcome.outOfRange
      else QueryOutcome.queried keycode.toNat
        (query_device (world path) query_mode keycode.toNat)

/-! ### The capture loop -/

/-- One `struct input_event` record (`{timeval, u16 type, u16 code, s32 value}`). -/
structure RawEvent where
  time : Int × Int
  type : Nat
  code : Nat
  value : Int
deriving DecidableEq

/-- The body of the per-record loop: resolve the name, then
`if (code != SYN_REPORT && strcmp(code_name, "?")) printf("%s\n", code_name);`.
Returns the line printed for this record, if any. -/
def emitEvent (ev : RawEvent) : Option String :=
  let code_name := codename ev.type ev.code
  if ev.code ≠ SYN_REPORT ∧ code_name ≠ "?" then some code_name else none

/-- The lines printed while draining one batch of decoded records. -/
def processBatch (evs : List RawEvent) : List String :=
  evs.filterMap emitEvent

/-- The environment's behaviour during one iteration of the capture loop:
whether the `SIGINT`/`SIGTERM` handler fired before the `while (!stop)` check,
whether it fired while the loop was blocked in `select`, the byte count the
subsequent `read` would return, and the records it would deliver. -/
structure Iter where
  sigBeforeWhile : Bool
  sigDuringWait : Bool
  rd : Int
  evs : List RawEvent
deriving DecidableEq

/-- Observable outcome of running `print_events` against a finite script:
either the function returned (`done`), recording the lines printed, the return
value, whether the releasing `ioctl(fd, EVIOCGRAB, NULL)` was issued before
returning, and how many `read` calls were issued — or the script ran out with
the loop still waiting (`pending`, same bookkeeping so far). -/
inductive CapResult where
  | done (output : List String) (exitCode : Nat) (released : Bool) (reads : Nat)
  | pending (output : List String) (reads : Nat)
deriving DecidableEq

/-- Prepend one successfully drained iteration (its printed lines and its one
`read`) to the outcome of the rest of the run. -/
def addStep (batch : List String) : CapResult → CapResult
  | CapResult.done out code rel n => CapResult.done (batch ++ out) code rel (n + 1)
  | CapResult.pending out n => CapResult.pending (batch ++ out) (n + 1)

/-- `print_events`, driven by a script.  Each iteration: the `while (!stop)`
check (exit → release grab → `return EXIT_SUCCESS`), the blocking `select`,
the post-wake `if (stop) break` (same normal-exit path, before any `read`),
then the `read`.  A result below `sizeof(struct input_event)` prints an error
and returns 1 immediately — inside the loop, before the releasing ioctl.
Otherwise `rd / sizeof(struct input_event)` records are decoded and printed
and the loop repeats. -/
def captureLoop : Bool → List Iter → CapResult
  | stop, [] =>
    if stop then CapResult.done [] 0 true 0 else CapResult.pending [] 0
  | stop, it :: rest =>
    if stop || it.sigBeforeWhile then CapResult.done [] 0 true 0
    else if it.sigDuringWait then CapResult.done [] 0 true 0
    else if it.rd < (inputEventSize : Int) then CapResult.done [] 1 false 1
    else
      addStep (processBatch (it.evs.take (it.rd.toNat / inputEventSize)))
        (captureLoop stop rest)

/-! ### main -/

inductive EvtestMode where
  | MODE_CAPTURE
  | MODE_QUERY
  | MODE_VERSION
deriving DecidableEq

/-- What an entry of `long_options` would do if option processing ran:
`--grab` stores 1 into `grab_flag` through the flag pointer; `--query` and
`--version` yield the corresponding mode values. -/
inductive OptEffect where
  | setGrabFlag
  | selectMode (m : EvtestMode)
deriving DecidableEq

/-- The `long_options` table.  `main` never calls `getopt_long`, so this table
is never consulted. -/
def long_options : List (String × OptEffect) :=
  [("grab", OptEffect.setGrabFlag),
   ("query", OptEffect.selectMode EvtestMode.MODE_QUERY),
   ("version", OptEffect.selectMode EvtestMode.MODE_VERSION)]

/-- `static int grab_flag = 0;` — never written, since no option processing
runs. -/
def grab_flag : Nat := 0

/-- The call `main` dispatches to. -/
inductive MainAction where
  | capture (device : Option String) (grab : Nat)
  | queryArgCheck
deriving DecidableEq

/-- The body of `main`: `device` stays `NULL`, `mode` is initialized to
`MODE_CAPTURE` and immediately tested, so `do_capture(device, grab_flag)` is
returned unconditionally; the argument-count check for query mode below is
dead code. -/
def mainDispatch (argv : List String) : MainAction :=
  let device : Option String := none
  let mode := EvtestMode.MODE_CAPTURE
  if mode = EvtestMode.MODE_CAPTURE then MainAction.capture device grab_flag
  else MainAction.queryArgCheck

/-! ### Concrete events used in witnesses and counterexamples -/

def keyAEv : RawEvent := ⟨(0, 0), EV_KEY, 30, 1⟩

def keyBEv : RawEvent := ⟨(0, 0), EV_KEY, 48, 1⟩

def synConfigEv : RawEvent := ⟨(0, 0), EV_SYN, SYN_CONFIG, 0⟩

/-! ### Generic list lemmas -/

theorem lookup_mem {β : Type} {l : List (Nat × β)} {a : Nat} {b : β}
    (h : l.lookup a = some b) : (a, b) ∈ l := by
  induction l with
  | nil => simp [List.lookup] at h
  | cons hd tl ih =>
    obtain ⟨k, v⟩ := hd
    by_cases hk : a = k
    · subst hk
      simp only [List.lookup, beq_self_eq_true, Option.some.injEq] at h
      subst h
      exact List.mem_cons_self _ _
    · have hkf : (a == k) = false := by simpa using hk
      simp only [List.lookup, hkf] at h
      exact List.mem_cons_of_mem _ (ih h)

theorem filterMap_replicate_some {α β : Type} (f : α → Option β) (a : α) (b : β)
    (h : f a = some b) (n : Nat) :
    (List.replicate n a).filterMap f = List.replicate n b := by
  induction n with
  | zero => rfl
  | succ n ih => simp [List.replicate_succ, List.filterMap_cons, h, ih]

theorem filterMap_filter_of_none {α β : Type} (f : α → Option β) (p : α → Bool)
    (l : List α) (h : ∀ a, p a = false → f a = none) :
    (l.filter p).filterMap f = l.filterMap f := by
  induction l with
  | nil => rfl
  | cons hd tl ih =>
    by_cases hp : p hd = true
    · simp [List.filter_cons, hp, List.filterMap_cons, ih]
    · have hpf : p hd = false := by simpa using hp
      simp [List.filter_cons, hpf, List.filterMap_cons, h hd hpf, ih]

/-! ### scanNames characterization -/

theorem scanNames_none (keynames : List (Option String)) (kstr : String) :
    ∀ fuel i, (∀ j, i ≤ j → j < i + fuel → keynames.getD j none ≠ some kstr) →
    scanNames keynames kstr i fuel = none := by
  intro fuel
  induction fuel with
  | zero => intro i _; rfl
  | succ fuel ih =>
    intro i h
    have hstep : ∀ j, i + 1 ≤ j → j < (i + 1) + fuel → keynames.getD j none ≠ some kstr :=
      fun j h1 h2 => h j (by omega) (by omega)
    cases hg : keynames.getD i none with
    | none =>
      simp only [scanNames, hg]
      exact ih (i + 1) hstep
    | some n =>
      have hne : n ≠ kstr := by
        intro he
        exact h i le_rfl (by omega) (by rw [hg, he])
      simp only [scanNames, hg]
      rw [if_neg hne]
      exact ih (i + 1) hstep

theorem scanNames_finds (keynames : List (Option String)) (kstr : String) (c : Nat) :
    ∀ fuel i, i ≤ c → c < i + fuel →
    keynames.getD c none = some kstr →
    (∀ j, i ≤ j → j < c → keynames.getD j none ≠ some kstr) →
    scanNames keynames kstr i fuel = some c := by
  intro fuel
  induction fuel with
  | zero => intro i h1 h2; omega
  | succ fuel ih =>
    intro i h1 h2 hc hprev
    by_cases hic : i = c
    · subst hic
      simp only [scanNames]
      rw [hc]
      simp
    · have hilt : i < c := lt_of_le_of_ne h1 hic
      have hstep := ih (i + 1) (by omega) (by omega) hc
        (fun j hj1 hj2 => hprev j (by omega) hj2)
      cases hg : keynames.getD i none with
      | none =>
        simp only [scanNames, hg]
        exact hstep
      | some n =>
        have hne : n ≠ kstr := by
          intro he
          exact hprev i le_rfl hilt (by rw [hg, he])
        simp only [scanNames, hg]
        rw [if_neg hne]
        exact hstep

/-! ### Claim C2 -/

/-- Claim C2 (confirmed): `main` initializes `mode` to `MODE_CAPTURE` and
immediately returns `do_capture(device, grab_flag)` with `device` still `NULL`
and `grab_flag` still 0; no command-line argument is ever examined, so every
invocation performs the same call and the option table and the query/version
modes are unreachable. -/
theorem main_ignores_arguments (argv : List String) :
    mainDispatch argv = MainAction.capture none 0 := rfl

/-! ### Claim C4 -/

/-- Claim C4 (confirmed): for every device and in-range keycode, the one-shot
state query has exactly three distinguishable outcomes: 1 exactly when the
open or the state ioctl fails, 10 exactly when the query succeeds and the
keycode's bit is set, and 0 exactly when it succeeds and the bit is clear. -/
theorem query_device_tristate (dev : Device) (qm : QueryMode) (kc : Nat)
    (hkc : kc ≤ qm.max) :
    (query_device dev qm kc = 1 ∨ query_device dev qm kc = 10 ∨
      query_device dev qm kc = 0) ∧
    (query_device dev qm kc = 1 ↔ dev.openOk = false ∨ dev.keyState = none) ∧
    (query_device dev qm kc = 10 ↔ dev.openOk = true ∧
      ∃ st, dev.keyState = some st ∧ test_bit kc st = true) ∧
    (query_device dev qm kc = 0 ↔ dev.openOk = true ∧
      ∃ st, dev.keyState = some st ∧ test_bit kc st = false) := by
  obtain ⟨op, st⟩ := dev
  cases op
  · simp [query_device]
  · cases st with
    | none => simp [query_device]
    | some s =>
      by_cases hb : test_bit kc s
      · simp [query_device, hb]
      · simp [query_device, hb]

/-- Witness for C4: a held key (bit 30 set) on a working device yields 10. -/
theorem query_device_tristate_witness :
    query_device ⟨true, some (2 ^ 30)⟩ evKeyMode 30 = 10 := by
  have h := (query_device_tristate ⟨true, some (2 ^ 30)⟩ evKeyMode 30
    (by norm_num [evKeyMode, KEY_MAX])).2.2.1
  exact h.mpr ⟨rfl, 2 ^ 30, rfl, by decide⟩

/-! ### Claim C10 -/

/-- Claim C10 (confirmed): in any iteration of the capture loop, if the
cancellation signal arrives while the loop is blocked in `select`, the
post-wake `if (stop) break` fires before any `read` is attempted: the loop
exits through the normal path (exit 0, grab released) with zero reads
issued. -/
theorem cancel_during_wait_no_read (it : Iter) (rest : List Iter)
    (h : it.sigDuringWait = true) :
    captureLoop false (it :: rest) = CapResult.done [] 0 true 0 := by
  by_cases hb : it.sigBeforeWhile
  · simp [captureLoop, hb]
  · simp [captureLoop, hb, h]

/-- Witness for C10: a signal during the first wait ends the loop with no
read. -/
theorem cancel_during_wait_no_read_witness :
    captureLoop false [⟨false, true, 100, []⟩] = CapResult.done [] 0 true 0 :=
  cancel_during_wait_no_read ⟨false, true, 100, []⟩ [] rfl

/-! ### Claim C6 -/

/-- Counterexample to C6 as stated: a fatal read error (3 bytes where a record
needs 24) terminates `print_events` with `return 1` from inside the loop,
before the releasing `ioctl(fd, EVIOCGRAB, NULL)` at the end of the function
is reached — the terminal outcome records `released = false`, so the held
grab is NOT released on the fatal-error path. -/
theorem capture_error_path_keeps_grab :
    captureLoop false [⟨false, false, 3, []⟩] = CapResult.done [] 1 false 1 := by
  decide

/-- Claim C6 (corrected): on the normal cancellation path the loop always
releases the grab before returning (exit 0 with release), but on the fatal
read-error path it returns failure without releasing (exit 1 without
release); every terminal outcome is one of these two shapes. -/
theorem capture_release_on_paths :
    ∀ (script : List Iter) (stop : Bool) (out : List String) (code : Nat)
      (rel : Bool) (n : Nat),
    captureLoop stop script = CapResult.done out code rel n →
    (code = 0 ∧ rel = true) ∨ (code = 1 ∧ rel = false) := by
  intro script
  induction script with
  | nil =>
    intro stop out code rel n h
    by_cases hs : stop
    · rw [captureLoop, if_pos hs] at h
      cases h
      exact Or.inl ⟨rfl, rfl⟩
    · rw [captureLoop, if_neg hs] at h
      cases h
  | cons it rest ih =>
    intro stop out code rel n h
    rw [captureLoop] at h
    by_cases h1 : (stop || it.sigBeforeWhile) = true
    · rw [if_pos h1] at h
      cases h
      exact Or.inl ⟨rfl, rfl⟩
    · rw [if_neg h1] at h
      by_cases h2 : it.sigDuringWait = true
      · rw [if_pos h2] at h
        cases h
        exact Or.inl ⟨rfl, rfl⟩
      · rw [if_neg h2] at h
        by_cases h3 : it.rd < (inputEventSize : Int)
        · rw [if_pos h3] at h
          cases h
          exact Or.inr ⟨rfl, rfl⟩
        · rw [if_neg h3] at h
          cases hrec : captureLoop stop rest with
          | done out2 code2 rel2 n2 =>
            rw [hrec] at h
            rw [addStep] at h
            cases h
            exact ih stop out2 code rel n2 hrec
          | pending out2 n2 =>
            rw [hrec, addStep] at h
            cases h

/-- Witness for C6 (amended): the normal-shutdown outcome of an immediately
cancelled loop falls in the allowed shapes. -/
theorem capture_release_on_paths_witness :
    ((0 : Nat) = 0 ∧ true = true) ∨ ((0 : Nat) = 1 ∧ true = false) :=
  capture_release_on_paths [] true [] 0 true 0 (by decide)

/-! ### Claim C9 -/

/-- An iteration that reaches the `read` with at least one record's worth of
bytes drains `rd / 24` records and continues the loop. -/
theorem captureLoop_drain_step (it : Iter) (rest : List Iter)
    (hw : it.sigBeforeWhile = false) (hs : it.sigDuringWait = false)
    (h3 : ¬ it.rd < (inputEventSize : Int)) :
    captureLoop false (it :: rest) =
      addStep (processBatch (it.evs.take (it.rd.toNat / inputEventSize)))
        (captureLoop false rest) := by
  simp [captureLoop, hw, hs, h3]

/-- Claim C9 (corrected): a read result below one record size (including the
-1 of a failed read) terminates the loop with failure before decoding
anything, but a longer batch length need not be a multiple of the record
size: the loop decodes `rd / 24` complete records and continues, ignoring a
trailing partial record. -/
theorem capture_read_result_handling (it : Iter) (rest : List Iter)
    (hw : it.sigBeforeWhile = false) (hs : it.sigDuringWait = false) :
    (it.rd < (inputEventSize : Int) →
      captureLoop false (it :: rest) = CapResult.done [] 1 false 1) ∧
    ((inputEventSize : Int) ≤ it.rd →
      captureLoop false (it :: rest) =
        addStep (processBatch (it.evs.take (it.rd.toNat / inputEventSize)))
          (captureLoop false rest)) := by
  constructor
  · intro h3
    simp [captureLoop, hw, hs, h3]
  · intro h3
    exact captureLoop_drain_step it rest hw hs (not_lt.mpr h3)

/-- Witness for C9 (amended): a failed read (`rd = -1`) is terminal with
failure, no decode, no release. -/
theorem capture_read_result_handling_witness :
    captureLoop false [⟨false, false, -1, []⟩] = CapResult.done [] 1 false 1 :=
  (capture_read_result_handling ⟨false, false, -1, []⟩ [] rfl rfl).1 (by decide)

/-! ### Table lemmas for codename -/

theorem syns_length : syns.length = SYN_MAX + 1 := mkArr_length _ _

theorem keys_length : keys.length = KEY_MAX + 1 := mkArr_length _ _

theorem forcestatus_length : forcestatus.length = FF_STATUS_MAX + 1 := mkArr_length _ _

theorem names_get? (t : Nat) (h : t < EV_MAX + 1) :
    names.get? t = some (namesEntries.lookup t) := by
  rw [names]
  exact mkArr_get? _ _ _ h

/-- A type other than the three registered ones has a NULL `names` row. -/
theorem namesEntries_lookup_other (t : Nat)
    (h0 : t ≠ EV_SYN) (h1 : t ≠ EV_KEY) (h23 : t ≠ EV_FF_STATUS) :
    namesEntries.lookup t = none := by
  have b0 : (t == EV_SYN) = false := by simpa using h0
  have b1 : (t == EV_KEY) = false := by simpa using h1
  have b23 : (t == EV_FF_STATUS) = false := by simpa using h23
  simp only [namesEntries, List.lookup, b0, b1, b23]

theorem names_get?_ev_key : names.get? EV_KEY = some (some keys) := by
  rw [names_get? EV_KEY (by norm_num [EV_KEY, EV_MAX])]
  rfl

theorem maxval_get?_ev_key : maxval.get? EV_KEY = some ((KEY_MAX : Nat) : Int) := by
  rw [maxval_get? EV_KEY (by norm_num [EV_KEY, EV_MAX])]
  rfl

theorem uintOfInt_keymax : uintOfInt ((KEY_MAX : Nat) : Int) = KEY_MAX := by decide

theorem keys_get? (c : Nat) (hc : c ≤ KEY_MAX) :
    keys.get? c = some (keysEntries.lookup c) := by
  rw [keys]
  exact mkArr_get? _ _ _ (by omega)

theorem keys_getD (j : Nat) :
    keys.getD j none = if j ≤ KEY_MAX then keysEntries.lookup j else none := by
  rw [List.getD_eq_getD_get?]
  by_cases h : j ≤ KEY_MAX
  · rw [if_pos h, keys_get? j h]
    rfl
  · rw [if_neg h, keys]
    rw [mkArr_get?_ge _ _ _ (by omega)]
    rfl

/-- The value of `codename` on the `EV_KEY` row, as a single equation. -/
theorem codenameChecked_ev_key (c : Nat) :
    codenameChecked EV_KEY c =
      some (if c ≤ KEY_MAX then (keysEntries.lookup c).getD "?" else "?") := by
  have h1 : EV_KEY ≤ EV_MAX := by norm_num [EV_KEY, EV_MAX]
  rw [codenameChecked, if_pos h1, maxval_get?_ev_key]
  simp only [uintOfInt_keymax]
  by_cases hc : c ≤ KEY_MAX
  · rw [if_pos hc, if_pos hc, names_get?_ev_key]
    simp only [keys_get? c hc]
    cases hl : keysEntries.lookup c <;> simp [hl]
  · rw [if_neg hc, if_neg hc]

/-- Concrete forward lookups, derived through `codenameChecked_ev_key` so that
only the small entry list — never the 768-slot array — is evaluated. -/
theorem codename_key_a : codename EV_KEY 30 = "KEY_A" := by
  rw [codename, codenameChecked_ev_key 30, if_pos (by norm_num [KEY_MAX])]
  rfl

theorem codename_key_b : codename EV_KEY 48 = "KEY_B" := by
  rw [codename, codenameChecked_ev_key 48, if_pos (by norm_num [KEY_MAX])]
  rfl

/-- The loop body prints an event exactly when its code is not `SYN_REPORT`
and its name resolves. -/
theorem emitEvent_eq_some (ev : RawEvent)
    (h1 : ev.code ≠ SYN_REPORT) (h2 : codename ev.type ev.code ≠ "?") :
    emitEvent ev = some (codename ev.type ev.code) := by
  rw [emitEvent, if_pos ⟨h1, h2⟩]

theorem emitEvent_keyA : emitEvent keyAEv = some "KEY_A" := by
  have h2 : codename keyAEv.type keyAEv.code = "KEY_A" := codename_key_a
  rw [emitEvent_eq_some keyAEv (by decide) (by rw [h2]; decide), h2]

theorem emitEvent_keyB : emitEvent keyBEv = some "KEY_B" := by
  have h2 : codename keyBEv.type keyBEv.code = "KEY_B" := codename_key_b
  rw [emitEvent_eq_some keyBEv (by decide) (by rw [h2]; decide), h2]

/-- Counterexample to C9 as stated: a read of 30 bytes — more than one
24-byte record but not a multiple of the record size — is NOT treated as a
fatal protocol violation: the loop decodes the one complete record (printing
"KEY_A"), silently discards the 6 trailing bytes, and keeps running. -/
theorem non_multiple_read_not_fatal :
    captureLoop false [⟨false, false, 30, [keyAEv]⟩] =
      CapResult.pending ["KEY_A"] 1 := by
  rw [captureLoop_drain_step ⟨false, false, 30, [keyAEv]⟩ [] rfl rfl (by decide)]
  show addStep (processBatch (List.take 1 [keyAEv])) (captureLoop false []) =
    CapResult.pending ["KEY_A"] 1
  rw [show List.take 1 [keyAEv] = [keyAEv] from rfl]
  rw [processBatch, List.filterMap_cons, emitEvent_keyA]
  rfl

/-! ### Claim C3 -/

/-- A row whose sub-table exists and is longer than `(unsigned)maxval[type]`
always resolves in bounds to `"?"` or a registered name. -/
theorem codenameChecked_table_row (type code : Nat) (h : type ≤ EV_MAX)
    (tbl : List (Option String)) (m : Int)
    (hm : maxval.get? type = some m)
    (hn : names.get? type = some (some tbl))
    (hlen : uintOfInt m < tbl.length) :
    ∃ s, codenameChecked type code = some s ∧ (s = "?" ∨ Registered type code s) := by
  by_cases hg : code ≤ uintOfInt m
  · have hlt : code < tbl.length := lt_of_le_of_lt hg hlen
    have hget : tbl.get? code = some (tbl.get ⟨code, hlt⟩) := List.get?_eq_get hlt
    cases hel : tbl.get ⟨code, hlt⟩ with
    | none =>
      refine ⟨"?", ?_, Or.inl rfl⟩
      rw [codenameChecked, if_pos h, hm]
      simp only [if_pos hg, hn, hget, hel]
    | some s =>
      refine ⟨s, ?_, Or.inr ⟨tbl, hn, by rw [hget, hel]⟩⟩
      rw [codenameChecked, if_pos h, hm]
      simp only [if_pos hg, hn, hget, hel]
  · refine ⟨"?", ?_, Or.inl rfl⟩
    rw [codenameChecked, if_pos h, hm]
    simp only [if_neg hg]

/-- A row with a NULL sub-table always resolves to `"?"`, whatever the
`maxval` comparison says (in particular for the `-1` placeholder, where the
unsigned comparison is always true). -/
theorem codenameChecked_null_row (type code : Nat) (h : type ≤ EV_MAX)
    (m : Int) (hm : maxval.get? type = some m)
    (hn : names.get? type = some none) :
    ∃ s, codenameChecked type code = some s ∧ (s = "?" ∨ Registered type code s) := by
  refine ⟨"?", ?_, Or.inl rfl⟩
  rw [codenameChecked, if_pos h, hm]
  by_cases hg : code ≤ uintOfInt m
  · simp only [if_pos hg, hn]
  · simp only [if_neg hg]

/-- Claim C3 (confirmed): for every pair of 32-bit inputs, `codename` only
performs in-bounds table reads (`codenameChecked` never returns the `none`
that marks an out-of-bounds access) and evaluates to either the unknown
sentinel `"?"` or a name registered for exactly that `(type, code)` pair.
The C comparison `code <= maxval[type]` converts `maxval[type]` to
`unsigned int` — for the `-1` placeholder rows it is always true — but those
rows have a NULL sub-table, so together the two checks exclude every
out-of-range access. -/
theorem codename_total_inbounds (type code : Nat)
    (htype : type < 2 ^ 32) (hcode : code < 2 ^ 32) :
    ∃ s, codenameChecked type code = some s ∧ (s = "?" ∨ Registered type code s) := by
  by_cases h : type ≤ EV_MAX
  · have hm := maxval_get? type (by omega)
    have hn := names_get? type (by omega)
    by_cases h0 : type = EV_SYN
    · subst h0
      refine codenameChecked_table_row _ code h syns _ hm ?_ ?_
      · rw [hn]
        rfl
      · rw [syns_length]
        decide
    · by_cases h1 : type = EV_KEY
      · subst h1
        refine codenameChecked_table_row _ code h keys _ hm ?_ ?_
        · rw [hn]
          rfl
        · rw [keys_length]
          decide
      · by_cases h23 : type = EV_FF_STATUS
        · subst h23
          refine codenameChecked_table_row _ code h forcestatus _ hm ?_ ?_
          · rw [hn]
            rfl
          · rw [forcestatus_length]
            decide
        · refine codenameChecked_null_row _ code h _ hm ?_
          rw [hn, namesEntries_lookup_other type h0 h1 h23]
  · refine ⟨"?", ?_, Or.inl rfl⟩
    rw [codenameChecked, if_neg h]

/-- Witness for C3 at `(EV_KEY, 30)`: the lookup stays in bounds and yields a
registered name. -/
theorem codename_total_inbounds_witness :
    ∃ s, codenameChecked 1 30 = some s ∧ (s = "?" ∨ Registered 1 30 s) :=
  codename_total_inbounds 1 30 (by norm_num) (by norm_num)

/-! ### Claim C1 -/

/-- Counterexample to C1 as stated: the loop body of `print_events` keeps no
`last_emitted_name` — there is no duplicate suppression at all.  Feeding the
same decoded event (resolved name "KEY_A") twice consecutively prints two
lines, not one. -/
theorem duplicate_names_print_twice :
    processBatch [keyAEv, keyAEv] = ["KEY_A", "KEY_A"] ∧
    (processBatch [keyAEv, keyAEv]).length ≠ 1 := by
  have h : processBatch [keyAEv, keyAEv] = ["KEY_A", "KEY_A"] := by
    rw [processBatch, List.filterMap_cons, emitEvent_keyA, List.filterMap_cons,
      emitEvent_keyA]
    rfl
  exact ⟨h, by rw [h]; decide⟩

/-- Claim C1 (corrected): the capture loop prints every decoded event whose
code is not `SYN_REPORT` and whose resolved name is not the unknown sentinel,
unconditionally — there is no `last_emitted_name` and no duplicate
suppression.  Feeding the same resolved name N times consecutively prints N
lines (not one), and feeding A, then B, then A again prints three lines. -/
theorem print_events_no_dedup (e1 e2 : RawEvent) (n : Nat)
    (h1 : e1.code ≠ SYN_REPORT) (h1n : codename e1.type e1.code ≠ "?")
    (h2 : e2.code ≠ SYN_REPORT) (h2n : codename e2.type e2.code ≠ "?") :
    processBatch (List.replicate n e1) =
      List.replicate n (codename e1.type e1.code) ∧
    processBatch [e1, e2, e1] =
      [codename e1.type e1.code, codename e2.type e2.code,
       codename e1.type e1.code] := by
  have he1 : emitEvent e1 = some (codename e1.type e1.code) := by
    rw [emitEvent, if_pos ⟨h1, h1n⟩]
  have he2 : emitEvent e2 = some (codename e2.type e2.code) := by
    rw [emitEvent, if_pos ⟨h2, h2n⟩]
  constructor
  · exact filterMap_replicate_some _ _ _ he1 n
  · simp [processBatch, List.filterMap_cons, he1, he2]

/-- Witness for C1 (amended): two consecutive KEY_A events print two lines;
KEY_A, KEY_B, KEY_A prints three. -/
theorem print_events_no_dedup_witness :
    processBatch (List.replicate 2 keyAEv) = List.replicate 2 "KEY_A" ∧
    processBatch [keyAEv, keyBEv, keyAEv] = ["KEY_A", "KEY_B", "KEY_A"] := by
  have ha : codename keyAEv.type keyAEv.code = "KEY_A" := codename_key_a
  have hb : codename keyBEv.type keyBEv.code = "KEY_B" := codename_key_b
  have h := print_events_no_dedup keyAEv keyBEv 2
    (by decide) (by rw [ha]; decide) (by decide) (by rw [hb]; decide)
  rw [ha, hb] at h
  exact h

/-! ### Claim C8 -/

/-- Counterexample to C8 as stated: the skip test in the loop is
`code != SYN_REPORT` — it checks the event's CODE, not its type.  A
synchronization-type event with a nonzero code (`EV_SYN`/`SYN_CONFIG`) is
resolved through the `syns` sub-table and printed. -/
theorem syn_config_event_is_printed :
    processBatch [synConfigEv] = ["SYN_CONFIG"] := by decide

/-- Claim C8 (corrected): the capture loop skips exactly the events whose
code equals `SYN_REPORT` (0), of any type — dropping them from a batch never
changes the output, and since there is no `last_emitted_name`, skipped events
trivially leave no dedup state behind.  Synchronization-type events with a
nonzero registered code are printed like any other named event. -/
theorem capture_skips_syn_report_code (evs : List RawEvent) :
    processBatch (evs.filter fun e => e.code != SYN_REPORT) = processBatch evs ∧
    (∀ e ∈ evs, e.code = SYN_REPORT → emitEvent e = none) ∧
    processBatch [synConfigEv] = ["SYN_CONFIG"] := by
  refine ⟨?_, ?_, by decide⟩
  · apply filterMap_filter_of_none
    intro a ha
    have hz : a.code = SYN_REPORT := by simpa using ha
    rw [emitEvent, if_neg]
    intro hcontra
    exact hcontra.1 hz
  · intro e _ he
    rw [emitEvent, if_neg]
    intro hcontra
    exact hcontra.1 he

/-! ### Key-table audits for the reverse lookup -/

/-- A numeric fingerprint of a string: its character codes read as base-256
digits.  Equal strings have equal fingerprints, so pairwise-distinct
fingerprints certify pairwise-distinct strings — and the kernel compares the
resulting `Nat` literals natively, far cheaper than 8000-odd character-list
comparisons. -/
def strCode (s : String) : Nat :=
  s.toList.foldl (fun a c => a * 256 + c.toNat) 0

def natFresh (n : Nat) : List Nat → Bool
  | [] => true
  | m :: rest => !(m == n) && natFresh n rest

def natsDistinct : List Nat → Bool
  | [] => true
  | m :: rest => natFresh m rest && natsDistinct rest

theorem natFresh_spec {n : Nat} {l : List Nat}
    (h : natFresh n l = true) : ∀ m ∈ l, m ≠ n := by
  induction l with
  | nil => intro m hm; cases hm
  | cons hd tl ih =>
    rw [natFresh, Bool.and_eq_true] at h
    intro m hm
    rcases List.mem_cons.mp hm with rfl | hm2
    · intro he
      rw [he] at h
      simp at h
    · exact ih h.2 m hm2

theorem natsDistinct_map_inj {α : Type} (f : α → Nat) {l : List α}
    (h : natsDistinct (l.map f) = true) :
    ∀ x ∈ l, ∀ y ∈ l, f x = f y → x = y := by
  induction l with
  | nil => intro x hx; cases hx
  | cons hd tl ih =>
    rw [List.map_cons, natsDistinct, Bool.and_eq_true] at h
    intro x hx y hy hf
    rcases List.mem_cons.mp hx with rfl | hx2
    · rcases List.mem_cons.mp hy with rfl | hy2
      · rfl
      · exact absurd hf.symm (natFresh_spec h.1 (f y) (List.mem_map_of_mem f hy2))
    · rcases List.mem_cons.mp hy with rfl | hy2
      · exact absurd hf (natFresh_spec h.1 (f x) (List.mem_map_of_mem f hx2))
      · exact ih h.2 x hx2 y hy2 hf

theorem keysEntries_strCodes_distinct :
    natsDistinct (keysEntries.map fun e => strCode e.2) = true := by decide

theorem keysEntries_fst_le : keysEntries.all (fun e => e.1 ≤ 593) = true := by decide

theorem keysEntries_no_digit :
    keysEntries.all (fun e => !(isDigitFirst e.2)) = true := by decide

theorem keysEntries_no_syn_report :
    keysEntries.all (fun e => e.2 != "SYN_REPORT") = true := by decide

/-- Registered key names are pairwise distinct, so a name determines its
code. -/
theorem keysEntries_value_inj {i c : Nat} {s : String}
    (hi : keysEntries.lookup i = some s) (hc : keysEntries.lookup c = some s) :
    i = c := by
  have h := natsDistinct_map_inj (fun e => strCode e.2) keysEntries_strCodes_distinct
    (i, s) (lookup_mem hi) (c, s) (lookup_mem hc) (rfl : strCode s = strCode s)
  exact congrArg Prod.fst h

/-- The `keynames` pointer fetched by `get_keycode` for the `EV_KEY` query
mode is the `keys` table. -/
theorem keynames_ev_key : (names.getD evKeyMode.event_type none).getD [] = keys := by
  rw [List.getD_eq_getD_get?]
  rw [show evKeyMode.event_type = EV_KEY from rfl, names_get?_ev_key]
  rfl

/-- `get_keycode` on a string that does not start with a digit takes the
name-scanning branch. -/
theorem get_keycode_name_path (qm : QueryMode) (kstr : String)
    (hd : isDigitFirst kstr = false) :
    get_keycode qm kstr =
      match scanNames ((names.getD qm.event_type none).getD []) kstr 0 qm.max with
      | some i => (i : Int)
      | none => -1 := by
  rw [get_keycode, if_neg (by rw [hd]; exact Bool.false_ne_true)]

/-! ### Claim C7 -/

/-- Counterexample to C7 as stated: `code_name(EV_SYN, SYN_REPORT)` is the
registered name "SYN_REPORT" (not the sentinel), but the program's only
reverse lookup — `get_keycode` over the single `EV_KEY` row of
`query_modes` — scans the `keys` table, finds no match, and returns `-1`, not
`SYN_REPORT` (0).  The claimed left-inverse identity fails for every type
other than `EV_KEY`. -/
theorem resolve_code_fails_on_syn_name :
    codename EV_SYN SYN_REPORT ≠ "?" ∧
    get_keycode evKeyMode (codename EV_SYN SYN_REPORT) ≠ ((SYN_REPORT : Nat) : Int) := by
  have hsyn : codename EV_SYN SYN_REPORT = "SYN_REPORT" := by decide
  refine ⟨by rw [hsyn]; decide, ?_⟩
  rw [hsyn]
  have hd : isDigitFirst "SYN_REPORT" = false := by decide
  have hnone : scanNames keys "SYN_REPORT" 0 evKeyMode.max = none := by
    apply scanNames_none
    intro j hj0 hj
    rw [keys_getD]
    by_cases hjk : j ≤ KEY_MAX
    · rw [if_pos hjk]
      intro hl
      have hmem := lookup_mem hl
      have := List.all_eq_true.mp keysEntries_no_syn_report (j, "SYN_REPORT") hmem
      simp at this
    · rw [if_neg hjk]
      exact fun hl => Option.noConfusion hl
  rw [get_keycode_name_path evKeyMode "SYN_REPORT" hd, keynames_ev_key, hnone]
  decide

/-- Claim C7 (corrected): restricted to the key domain — the only query mode
the program defines — the reverse lookup is a left-inverse of the forward
lookup: whenever `codename(EV_KEY, c)` is a registered (non-sentinel) name,
`get_keycode` over the `EV_KEY` mode maps that name back to exactly `c`. -/
theorem resolve_code_left_inverse_ev_key (c : Nat)
    (h : codename EV_KEY c ≠ "?") :
    get_keycode evKeyMode (codename EV_KEY c) = (c : Int) := by
  have hck := codenameChecked_ev_key c
  by_cases hc : c ≤ KEY_MAX
  · have hcn : codename EV_KEY c = (keysEntries.lookup c).getD "?" := by
      rw [codename, hck, if_pos hc]
      rfl
    cases hl : keysEntries.lookup c with
    | none =>
      exfalso
      apply h
      rw [hcn, hl]
      rfl
    | some s =>
      have hs : codename EV_KEY c = s := by
        rw [hcn, hl]
        rfl
      have hmem : (c, s) ∈ keysEntries := lookup_mem hl
      have hb : c ≤ 593 := by
        have := List.all_eq_true.mp keysEntries_fst_le (c, s) hmem
        simpa using this
      have hd : isDigitFirst s = false := by
        have := List.all_eq_true.mp keysEntries_no_digit (c, s) hmem
        simpa using this
      have hscan : scanNames keys s 0 evKeyMode.max = some c := by
        apply scanNames_finds
        · exact Nat.zero_le c
        · show c < 0 + evKeyMode.max
          have hm : evKeyMode.max = KEY_MAX := rfl
          rw [hm, KEY_MAX]
          omega
        · rw [keys_getD, if_pos hc, hl]
        · intro j hj0 hjc
          rw [keys_getD, if_pos (by omega)]
          intro hl2
          exact absurd (keysEntries_value_inj hl2 hl) (by omega)
      rw [hs, get_keycode_name_path evKeyMode s hd, keynames_ev_key, hscan]
  · exfalso
    apply h
    rw [codename, hck, if_neg hc]
    rfl

/-- Witness for C7 (amended): `codename(EV_KEY, 30) = "KEY_A"` maps back to
30. -/
theorem resolve_code_left_inverse_ev_key_witness :
    get_keycode evKeyMode (codename EV_KEY 30) = (30 : Int) :=
  resolve_code_left_inverse_ev_key 30 (by rw [codename_key_a]; decide)

/-! ### Claim C5 -/

theorem find_query_mode_ev_key : find_query_mode "EV_KEY" = some evKeyMode := rfl

/-- Claim C5 (confirmed): in query mode, a resolved keycode strictly greater
than the mode's maximum is rejected as out of range before the device is
opened or queried (the outcome is independent of the device behind the
path), while a keycode equal to the maximum is accepted and the query
proceeds to the device. -/
theorem do_query_boundary (world : String → Device) (path et kname : String) :
    (get_keycode evKeyMode kname > (KEY_MAX : Int) →
      do_query world (some path) et kname = QueryOutcome.outOfRange) ∧
    (get_keycode evKeyMode kname = (KEY_MAX : Int) →
      do_query world (some path) et kname =
        QueryOutcome.queried KEY_MAX (query_device (world path) evKeyMode KEY_MAX)) := by
  constructor
  · intro hk
    have hnneg : ¬ get_keycode evKeyMode kname < 0 := by omega
    simp only [do_query, find_query_mode_ev_key]
    rw [if_neg hnneg, if_pos (by exact hk)]
  · intro hk
    have hnneg : ¬ get_keycode evKeyMode kname < 0 := by omega
    have hnrange : ¬ get_keycode evKeyMode kname > ((evKeyMode.max : Nat) : Int) := by
      rw [show evKeyMode.max = KEY_MAX from rfl]
      omega
    simp only [do_query, find_query_mode_ev_key]
    rw [if_neg hnneg, if_neg hnrange, hk]
    rfl

/-- Witness for C5: the numeral "768" (`KEY_MAX + 1`) is rejected without
device interaction; "767" (`KEY_MAX`) reaches the device and queries bit 767
of an all-clear key state. -/
theorem do_query_boundary_witness :
    do_query (fun _ => ⟨true, some 0⟩) (some "/dev/input/event0") "EV_KEY" "768" =
      QueryOutcome.outOfRange ∧
    do_query (fun _ => ⟨true, some 0⟩) (some "/dev/input/event0") "EV_KEY" "767" =
      QueryOutcome.queried 767 0 := by
  constructor
  · exact (do_query_boundary (fun _ => ⟨true, some 0⟩) "/dev/input/event0"
      "EV_KEY" "768").1 (by decide)
  · have h := (do_query_boundary (fun _ => ⟨true, some 0⟩) "/dev/input/event0"
      "EV_KEY" "767").2 (by decide)
    rw [h]
    decide

end KbStats
